import Mathlib

/-!
Verification of the portfolio contact-form relay backend.

The repository holds two deployments of the same idea: src/server.js (the
Express server with the /send-message and /send-file endpoints, the multer
upload configuration, the Telegram helpers and the path guard) and a second,
older deployment (src/unnamed/part_000) with only a /send-message endpoint.
JavaScript strings are modelled as lists of characters, JSON body values as a
small inductive of JavaScript values, and the asynchronous calls to the
Telegram API as explicit oracle parameters (the parsed response, or the
message of a thrown transport error).  Every definition below is a direct
translation of the corresponding lines of the source; the few places where
behaviour of the Node or multer runtime is modelled rather than translated
say so in their doc comments.
-/

/-- A JavaScript string, modelled as its list of characters. -/
abbrev JStr := List Char

/-- A JSON-decodable JavaScript value as it can appear in a request body
field after body parsing: a string, a number, a boolean, null, or the
undefined produced by destructuring an absent field.  Numbers are modelled
as integers, which is enough to decide their truthiness. -/
inductive JsVal where
  | vstr (s : JStr)
  | vnum (n : Int)
  | vbool (b : Bool)
  | vnull
  | vundefined
  deriving DecidableEq

/-- JavaScript truthiness of a body field value, as tested by the guards
if (!name), if (!text) and so on in both deployments. -/
def truthy : JsVal → Bool
  | JsVal.vstr s => !s.isEmpty
  | JsVal.vnum n => n != 0
  | JsVal.vbool b => b
  | JsVal.vnull => false
  | JsVal.vundefined => false

/- ===================== Input sanitizer ===================== -/

/-- One global regex replacement of a single character by a fixed string,
as text.replace with a g-flagged single-character pattern performs it. -/
def replaceAllChar (target : Char) (repl : JStr) : JStr → JStr
  | [] => []
  | c :: cs => (if c = target then repl else [c]) ++ replaceAllChar target repl cs

/-- The replacement chain of both sanitizers (src/server.js line 89 and
src/unnamed/part_000 line 35): every left angle bracket becomes the entity
for lt, then every right angle bracket becomes the entity for gt. -/
def escapeHtml (s : JStr) : JStr :=
  replaceAllChar '>' "&gt;".data (replaceAllChar '<' "&lt;".data s)

/-- The per-character effect of the two chained replacements; used to state
that escapeHtml acts independently on each character. -/
def escapeChar (c : Char) : JStr :=
  if c = '<' then "&lt;".data else if c = '>' then "&gt;".data else [c]

/-- sanitizeInput of src/server.js lines 87-90.  A falsy argument returns the
empty string; a truthy string is escaped; a truthy value of any other type
has no replace method, so the call throws a TypeError, modelled as the
error case. -/
def sanitizeInput (text : JsVal) : Except Unit JStr :=
  if !truthy text then Except.ok []
  else
    match text with
    | JsVal.vstr s => Except.ok (escapeHtml s)
    | _ => Except.error ()

/-- sanitizeInput of src/unnamed/part_000 lines 30-36: an explicit typeof
check makes any non-string argument return the empty string, and every
string argument is escaped. -/
def sanitizeInput2 (text : JsVal) : JStr :=
  match text with
  | JsVal.vstr s => escapeHtml s
  | _ => []

/- ===================== Sanitizer lemmas ===================== -/

lemma replaceAllChar_append (t : Char) (r : JStr) (a b : JStr) :
    replaceAllChar t r (a ++ b) = replaceAllChar t r a ++ replaceAllChar t r b := by
  induction a with
  | nil => rfl
  | cons c cs ih => simp [replaceAllChar, ih]

lemma escapeHtml_eq_flatMap (s : JStr) : escapeHtml s = s.flatMap escapeChar := by
  induction s with
  | nil => rfl
  | cons c cs ih =>
    show replaceAllChar '>' "&gt;".data
      ((if c = '<' then "&lt;".data else [c]) ++ replaceAllChar '<' "&lt;".data cs) =
      escapeChar c ++ cs.flatMap escapeChar
    rw [replaceAllChar_append]
    have hc : replaceAllChar '>' "&gt;".data (if c = '<' then "&lt;".data else [c]) =
        escapeChar c := by
      by_cases h1 : c = '<'
      · subst h1; decide
      · by_cases h2 : c = '>'
        · subst h2; simp [escapeChar]; decide
        · simp [h1, h2, replaceAllChar, escapeChar]
    rw [hc]
    show escapeChar c ++ escapeHtml cs = escapeChar c ++ cs.flatMap escapeChar
    rw [ih]

lemma escapeChar_of_other (c : Char) (h1 : c ≠ '<') (h2 : c ≠ '>') :
    escapeChar c = [c] := by
  simp [escapeChar, h1, h2]

lemma escapeChar_no_angle (c : Char) : '<' ∉ escapeChar c ∧ '>' ∉ escapeChar c := by
  by_cases h1 : c = '<'
  · subst h1; decide
  · by_cases h2 : c = '>'
    · subst h2; decide
    · rw [escapeChar_of_other c h1 h2]
      simp only [List.mem_singleton]
      exact ⟨fun h => h1 h.symm, fun h => h2 h.symm⟩

lemma escapeHtml_no_angle (s : JStr) : '<' ∉ escapeHtml s ∧ '>' ∉ escapeHtml s := by
  rw [escapeHtml_eq_flatMap]
  constructor
  · intro h
    rcases List.mem_flatMap.mp h with ⟨a, _, ha⟩
    exact (escapeChar_no_angle a).1 ha
  · intro h
    rcases List.mem_flatMap.mp h with ⟨a, _, ha⟩
    exact (escapeChar_no_angle a).2 ha

/- ===================== Path model ===================== -/

/-- The POSIX path separator character, the value of the path module
separator on the Linux deployment platform. -/
def pathSep : Char := '/'

/-- Splitting a string at the separator, with the semantics of the
JavaScript string split method: adjacent separators and separators at
either end produce empty parts. -/
def splitSep : JStr → List JStr
  | [] => [[]]
  | c :: cs =>
    match splitSep cs with
    | [] => [[c]]
    | h :: t => if c = pathSep then [] :: h :: t else (c :: h) :: t

/-- One step of POSIX path resolution: empty and single-dot segments are
dropped, a double-dot segment removes the last resolved component (staying
at the root when there is none), any other segment is appended.  This
models the normalisation the Node path module performs; the path module is
Node standard library, not repository code, and src/server.js calls it at
lines 117-118 and 154-155. -/
def resolveStep (acc : List JStr) (c : JStr) : List JStr :=
  if c = [] ∨ c = ['.'] then acc
  else if c = ['.', '.'] then acc.dropLast
  else acc ++ [c]

/-- Node path resolution of a single argument against an absolute current
working directory, as src/server.js uses it: an absolute candidate restarts
at the filesystem root, a relative one starts at the working directory, and
the segments are then resolved left to right.  The result is the resolved,
canonical component list of the path. -/
def resolvePath (cwd : List JStr) (s : JStr) : List JStr :=
  match s with
  | [] => cwd
  | c :: rest =>
    if c = pathSep then (splitSep rest).foldl resolveStep []
    else (splitSep (c :: rest)).foldl resolveStep cwd

/-- A well-formed resolved path component: nonempty and free of the
separator character. -/
def validComp (c : JStr) : Bool :=
  !c.isEmpty && c.all (fun ch => ch != pathSep)

/-- All components of a resolved path are well formed. -/
def validComps (l : List JStr) : Bool := l.all validComp

/-- Rendering an absolute path from its resolved components, as the Node
path module prints it: the filesystem root is the bare separator, and
otherwise every component is preceded by one separator. -/
def renderAbs (l : List JStr) : JStr :=
  if l.isEmpty then [pathSep] else l.flatMap (fun c => pathSep :: c)

/-- The path-containment check that src/server.js duplicates at lines
116-128 (inside sendTelegramFile) and lines 152-166 (inside removeFile):
append a separator to the resolved candidate, make sure the resolved
uploads root ends with a separator, and test the JavaScript startsWith. -/
def guardCheck (resolvedPath resolvedUploadsPath : JStr) : Bool :=
  let normalizedResolvedPath := resolvedPath ++ [pathSep]
  let normalizedUploadsPath :=
    if resolvedUploadsPath.getLast? = some pathSep then resolvedUploadsPath
    else resolvedUploadsPath ++ [pathSep]
  normalizedUploadsPath.isPrefixOf normalizedResolvedPath

/-- The semantic containment the guard is meant to decide: the resolved
candidate lies at or below the uploads root, that is, the root components
are a prefix of the candidate components.  Claim C10 records that the root
itself passes the guard of the code, so descent here includes equality. -/
def isDescendantOf (p root : List JStr) : Prop := root <+: p

instance (p root : List JStr) : Decidable (isDescendantOf p root) :=
  inferInstanceAs (Decidable (root <+: p))

/- ===================== Path guard lemmas ===================== -/

lemma splitSep_ne_nil (s : JStr) : splitSep s ≠ [] := by
  cases s with
  | nil => simp [splitSep]
  | cons c cs =>
    simp only [splitSep]
    cases splitSep cs with
    | nil => simp
    | cons h t =>
      by_cases hc : c = pathSep
      · simp [hc]
      · simp [hc]

lemma splitSep_no_sep (s : JStr) :
    ∀ p ∈ splitSep s, p.all (fun ch => ch != pathSep) = true := by
  induction s with
  | nil => intro p hp; simp [splitSep] at hp; simp [hp]
  | cons c cs ih =>
    intro p hp
    simp only [splitSep] at hp
    obtain ⟨h, t, hsplit⟩ : ∃ h t, splitSep cs = h :: t := by
      cases hv : splitSep cs with
      | nil => exact absurd hv (splitSep_ne_nil cs)
      | cons h t => exact ⟨h, t, rfl⟩
    rw [hsplit] at hp
    have hp2 : p ∈ if c = pathSep then [] :: h :: t else (c :: h) :: t := hp
    clear hp
    rename' hp2 => hp
    by_cases hc : c = pathSep
    · rw [if_pos hc, List.mem_cons, List.mem_cons] at hp
      rcases hp with hp | hp | hp
      · simp [hp]
      · rw [hp]
        exact ih h (by rw [hsplit]; exact List.mem_cons_self h t)
      · exact ih p (by rw [hsplit]; exact List.mem_cons_of_mem h hp)
    · rw [if_neg hc, List.mem_cons] at hp
      rcases hp with hp | hp
      · subst hp
        have hh := ih h (by rw [hsplit]; exact List.mem_cons_self h t)
        simp only [List.all_cons, hh, Bool.and_true]
        simp [hc]
      · exact ih p (by rw [hsplit]; exact List.mem_cons_of_mem h hp)

lemma validComps_dropLast (l : List JStr) (h : validComps l = true) :
    validComps l.dropLast = true := by
  rw [validComps, List.all_eq_true] at h ⊢
  intro x hx
  exact h x (List.mem_of_mem_dropLast hx)

lemma validComps_resolveStep (acc : List JStr) (c : JStr)
    (hacc : validComps acc = true) (hc : c.all (fun ch => ch != pathSep) = true) :
    validComps (resolveStep acc c) = true := by
  rw [resolveStep]
  by_cases h1 : c = [] ∨ c = ['.']
  · simp [h1, hacc]
  · rw [if_neg h1]
    by_cases h2 : c = ['.', '.']
    · simp [h2, validComps_dropLast acc hacc]
    · rw [if_neg h2]
      rw [validComps, List.all_eq_true]
      intro x hx
      rcases List.mem_append.mp hx with hx | hx
      · exact (List.all_eq_true.mp hacc) x hx
      · rw [List.mem_singleton] at hx
        subst hx
        have hne : x ≠ [] := fun habs => h1 (Or.inl habs)
        rw [validComp]
        simp [hne, hc]

lemma validComps_foldl (l : List JStr) (acc : List JStr)
    (hacc : validComps acc = true)
    (hl : ∀ c ∈ l, c.all (fun ch => ch != pathSep) = true) :
    validComps (l.foldl resolveStep acc) = true := by
  induction l generalizing acc with
  | nil => exact hacc
  | cons c cs ih =>
    rw [List.foldl_cons]
    exact ih (resolveStep acc c)
      (validComps_resolveStep acc c hacc (hl c (List.mem_cons_self c cs)))
      (fun d hd => hl d (List.mem_cons_of_mem c hd))

lemma validComps_resolvePath (cwd : List JStr) (s : JStr)
    (hcwd : validComps cwd = true) :
    validComps (resolvePath cwd s) = true := by
  cases s with
  | nil => exact hcwd
  | cons c rest =>
    show validComps (if c = pathSep then (splitSep rest).foldl resolveStep []
      else (splitSep (c :: rest)).foldl resolveStep cwd) = true
    by_cases hc : c = pathSep
    · rw [if_pos hc]
      exact validComps_foldl _ [] rfl (splitSep_no_sep rest)
    · rw [if_neg hc]
      exact validComps_foldl _ cwd hcwd (splitSep_no_sep (c :: rest))

lemma seg_prefix_eq (c : JStr) : ∀ (d rest1 rest2 : JStr),
    c.all (fun ch => ch != pathSep) = true →
    d.all (fun ch => ch != pathSep) = true →
    rest1.head? = some pathSep → rest2.head? = some pathSep →
    c ++ rest1 <+: d ++ rest2 → c = d ∧ rest1 <+: rest2 := by
  induction c with
  | nil =>
    intro d rest1 rest2 _ hd h1 h2 hpre
    cases d with
    | nil => exact ⟨rfl, by simpa using hpre⟩
    | cons e d2 =>
      obtain ⟨t1, ht1⟩ : ∃ t1, rest1 = pathSep :: t1 := by
        cases rest1 with
        | nil => simp at h1
        | cons x xs => exact ⟨xs, by rw [Option.some.inj h1]⟩
      rw [ht1] at hpre
      simp only [List.nil_append, List.cons_append] at hpre
      have heq : pathSep = e := (List.cons_prefix_cons.mp hpre).1
      have : e != pathSep := (List.all_eq_true.mp hd) e (List.mem_cons_self e d2)
      rw [← heq] at this
      simp at this
  | cons a c2 ih =>
    intro d rest1 rest2 hc hd h1 h2 hpre
    cases d with
    | nil =>
      obtain ⟨t2, ht2⟩ : ∃ t2, rest2 = pathSep :: t2 := by
        cases rest2 with
        | nil => simp at h2
        | cons x xs => exact ⟨xs, by rw [Option.some.inj h2]⟩
      rw [ht2] at hpre
      simp only [List.cons_append, List.nil_append] at hpre
      have heq : a = pathSep := (List.cons_prefix_cons.mp hpre).1
      have : a != pathSep := (List.all_eq_true.mp hc) a (List.mem_cons_self a c2)
      rw [heq] at this
      simp at this
    | cons e d2 =>
      simp only [List.cons_append] at hpre
      obtain ⟨hae, hrest⟩ := List.cons_prefix_cons.mp hpre
      have hc2 : c2.all (fun ch => ch != pathSep) = true := by
        rw [List.all_cons] at hc
        exact (Bool.and_eq_true_iff.mp hc).2
      have hd2 : d2.all (fun ch => ch != pathSep) = true := by
        rw [List.all_cons] at hd
        exact (Bool.and_eq_true_iff.mp hd).2
      obtain ⟨hcd, hr⟩ := ih d2 rest1 rest2 hc2 hd2 h1 h2 hrest
      exact ⟨by rw [hae, hcd], hr⟩

lemma head_flatMapSep_append (r : List JStr) :
    ((r.flatMap (fun c => pathSep :: c)) ++ [pathSep]).head? = some pathSep := by
  cases r with
  | nil => rfl
  | cons c cs => rfl

lemma validComp_parts (c : JStr) (h : validComp c = true) :
    c ≠ [] ∧ c.all (fun ch => ch != pathSep) = true := by
  rw [validComp, Bool.and_eq_true_iff] at h
  refine ⟨?_, h.2⟩
  intro habs
  rw [habs] at h
  simp at h

lemma validComps_cons (c : JStr) (r : List JStr) (h : validComps (c :: r) = true) :
    validComp c = true ∧ validComps r = true := by
  rw [validComps, List.all_cons, Bool.and_eq_true_iff] at h
  exact ⟨h.1, h.2⟩

lemma flatMapSep_ne_nil (c : JStr) (r : List JStr) :
    (c :: r).flatMap (fun x => pathSep :: x) ≠ [] := by
  simp [List.flatMap_cons]

lemma flatMapSep_pfx_iff (r : List JStr) : ∀ (p : List JStr),
    validComps r = true → validComps p = true →
    ((r.flatMap (fun x => pathSep :: x) ++ [pathSep]) <+:
      (p.flatMap (fun x => pathSep :: x) ++ [pathSep]) ↔ r <+: p) := by
  induction r with
  | nil =>
    intro p _ _
    constructor
    · intro _; exact List.nil_prefix
    · intro _
      cases p with
      | nil => simp
      | cons d p2 =>
        simp only [List.flatMap_nil, List.nil_append, List.flatMap_cons,
          List.cons_append, List.append_assoc]
        exact ⟨_, rfl⟩
  | cons c r2 ih =>
    intro p hr hp
    obtain ⟨hc, hr2⟩ := validComps_cons c r2 hr
    cases p with
    | nil =>
      constructor
      · intro hpre
        have hlen := hpre.length_le
        simp only [List.flatMap_cons, List.flatMap_nil, List.length_append,
          List.length_cons, List.nil_append, List.length_nil] at hlen
        omega
      · intro hpre
        have := List.eq_nil_of_prefix_nil hpre
        simp at this
    | cons d p2 =>
      obtain ⟨hd, hp2⟩ := validComps_cons d p2 hp
      have hshape : ∀ (x : JStr) (l : List JStr),
          (x :: l).flatMap (fun y => pathSep :: y) ++ [pathSep] =
          pathSep :: (x ++ (l.flatMap (fun y => pathSep :: y) ++ [pathSep])) := by
        intro x l
        simp [List.flatMap_cons, List.append_assoc]
      rw [hshape c r2, hshape d p2, List.cons_prefix_cons]
      constructor
      · rintro ⟨-, hrest⟩
        obtain ⟨hcd, hr'⟩ := seg_prefix_eq c d _ _
          (validComp_parts c hc).2 (validComp_parts d hd).2
          (head_flatMapSep_append r2) (head_flatMapSep_append p2) hrest
        rw [List.cons_prefix_cons]
        exact ⟨hcd, (ih p2 hr2 hp2).mp hr'⟩
      · intro hpre
        obtain ⟨hcd, hr'⟩ := List.cons_prefix_cons.mp hpre
        refine ⟨rfl, ?_⟩
        rw [hcd]
        rw [List.prefix_append_right_inj]
        exact (ih p2 hr2 hp2).mpr hr'

lemma mem_of_getLast_some (l : List Char) (a : Char) (h : l.getLast? = some a) :
    a ∈ l := by
  cases l with
  | nil => simp at h
  | cons x xs =>
    rw [List.getLast?_eq_getLast _ (by simp)] at h
    rw [← Option.some.inj h]
    exact List.getLast_mem _

lemma getLast_flatMapSep (r : List JStr) (hr : validComps r = true) (hne : r ≠ []) :
    ∀ ch, (r.flatMap (fun x => pathSep :: x)).getLast? = some ch → ch ≠ pathSep := by
  induction r with
  | nil => exact absurd rfl hne
  | cons c r2 ih =>
    intro ch hch
    obtain ⟨hc, hr2⟩ := validComps_cons c r2 hr
    cases r2 with
    | nil =>
      simp only [List.flatMap_cons, List.flatMap_nil, List.append_nil] at hch
      obtain ⟨hcne, hcall⟩ := validComp_parts c hc
      have : ((pathSep :: c) : JStr) = [pathSep] ++ c := rfl
      rw [this, List.getLast?_append_of_ne_nil _ hcne] at hch
      have hmem : ch ∈ c := mem_of_getLast_some c ch hch
      have := (List.all_eq_true.mp hcall) ch hmem
      simpa using this
    | cons c2 r3 =>
      simp only [List.flatMap_cons] at hch
      rw [List.getLast?_append_of_ne_nil _ (by
        show (pathSep :: c2) ++ (r3.flatMap (fun x => pathSep :: x)) ≠ []
        simp)] at hch
      have := ih hr2 (by simp) ch
      simp only [List.flatMap_cons] at this
      exact this hch

/-- The string-level containment check of src/server.js agrees exactly with
component-level containment: the guard accepts a resolved candidate if and
only if the resolved uploads root components are a prefix of the candidate
components. -/
lemma guardCheck_eq_true_iff (p r : List JStr)
    (hp : validComps p = true) (hr : validComps r = true) :
    guardCheck (renderAbs p) (renderAbs r) = true ↔ r <+: p := by
  cases r with
  | nil =>
    have h1 : guardCheck (renderAbs p) (renderAbs []) =
        ([pathSep] : JStr).isPrefixOf (renderAbs p ++ [pathSep]) := by
      show (if (renderAbs ([] : List JStr)).getLast? = some pathSep
          then renderAbs ([] : List JStr)
          else renderAbs ([] : List JStr) ++ [pathSep]).isPrefixOf
          (renderAbs p ++ [pathSep]) =
        ([pathSep] : JStr).isPrefixOf (renderAbs p ++ [pathSep])
      rw [if_pos (by decide)]
      rfl
    rw [h1]
    constructor
    · intro _; exact List.nil_prefix
    · intro _
      rw [List.isPrefixOf_iff_prefix]
      cases p with
      | nil => decide
      | cons d p2 =>
        have hrendp : renderAbs (d :: p2) = (d :: p2).flatMap (fun x => pathSep :: x) := by
          rw [renderAbs]; simp
        rw [hrendp]
        simp only [List.flatMap_cons, List.cons_append, List.append_assoc]
        rw [List.cons_prefix_cons]
        exact ⟨rfl, List.nil_prefix⟩
  | cons c r2 =>
    have hrend : renderAbs (c :: r2) = (c :: r2).flatMap (fun x => pathSep :: x) := by
      rw [renderAbs]; simp
    have hcond : ¬(renderAbs (c :: r2)).getLast? = some pathSep := by
      rw [hrend]
      intro habs
      exact getLast_flatMapSep (c :: r2) hr (by simp) pathSep habs rfl
    have hguard : guardCheck (renderAbs p) (renderAbs (c :: r2)) =
        ((renderAbs (c :: r2)) ++ [pathSep]).isPrefixOf (renderAbs p ++ [pathSep]) := by
      show (if (renderAbs (c :: r2)).getLast? = some pathSep then renderAbs (c :: r2)
          else renderAbs (c :: r2) ++ [pathSep]).isPrefixOf (renderAbs p ++ [pathSep]) =
        ((renderAbs (c :: r2)) ++ [pathSep]).isPrefixOf (renderAbs p ++ [pathSep])
      rw [if_neg hcond]
    rw [hguard, List.isPrefixOf_iff_prefix, hrend]
    cases p with
    | nil =>
      have hrnil : renderAbs ([] : List JStr) = [pathSep] := rfl
      rw [hrnil]
      constructor
      · intro hpre
        have hlen := hpre.length_le
        have hc1 : c ≠ [] := (validComp_parts c (validComps_cons c r2 hr).1).1
        have hc2 : 1 ≤ c.length := List.length_pos.mpr hc1
        simp only [List.flatMap_cons, List.cons_append, List.length_append,
          List.length_cons, List.length_singleton, List.length_nil] at hlen
        omega
      · intro hpre
        exact absurd (List.eq_nil_of_prefix_nil hpre) (by simp)
    | cons d p2 =>
      have hrendp : renderAbs (d :: p2) = (d :: p2).flatMap (fun x => pathSep :: x) := by
        rw [renderAbs]; simp
      rw [hrendp]
      exact flatMapSep_pfx_iff (c :: r2) (d :: p2) hr hp

/- ===================== File operations ===================== -/

/-- The parsed Telegram API response: only its ok field drives any branch of
the server. -/
structure TgResult where
  ok : Bool
  deriving DecidableEq

/-- Effect of one removeFile call (src/server.js lines 152-173): whether the
file was deleted from disk, and whether a containment violation was logged.
The fileExists argument is the answer the existsSync call would give. -/
structure RemoveResult where
  deleted : Bool
  loggedViolation : Bool
  deriving DecidableEq

/-- removeFile of src/server.js lines 152-173.  The candidate path and the
uploads directory are resolved, the duplicated containment check runs, and
on failure the function logs and returns without touching the file; on
success it unlinks the file when it exists.  The uploads directory is given
by its resolved components, as path.join of the directory of the server
with the uploads name produces it. -/
def removeFile (cwd uploadsRoot : List JStr) (filePath : JStr)
    (fileExists : Bool) : RemoveResult :=
  let resolvedPath := renderAbs (resolvePath cwd filePath)
  let resolvedUploadsPath := renderAbs uploadsRoot
  if !guardCheck resolvedPath resolvedUploadsPath then
    { deleted := false, loggedViolation := true }
  else
    { deleted := fileExists, loggedViolation := false }

instance {α β : Type} [DecidableEq α] [DecidableEq β] : DecidableEq (Except α β)
  | Except.ok a, Except.ok b =>
    if h : a = b then isTrue (by rw [h]) else isFalse (fun habs => h (Except.ok.inj habs))
  | Except.ok _, Except.error _ => isFalse (fun habs => Except.noConfusion habs)
  | Except.error _, Except.ok _ => isFalse (fun habs => Except.noConfusion habs)
  | Except.error a, Except.error b =>
    if h : a = b then isTrue (by rw [h]) else isFalse (fun habs => h (Except.error.inj habs))

/-- Outcome of one sendTelegramFile call (src/server.js lines 111-149):
the paths passed to createReadStream, whether the outbound fetch to the
Telegram API was reached, and either the thrown error message or the parsed
response.  The apiOutcome argument is the oracle for the awaited fetch:
a parsed response, or the message of a thrown transport error. -/
structure SendFileResult where
  readPaths : List JStr
  fetchAttempted : Bool
  outcome : Except JStr TgResult
  deriving DecidableEq

/-- sendTelegramFile of src/server.js lines 111-149.  The containment check
runs first on the resolved candidate path; a violation throws the fixed
Invalid file path error before any read stream is opened and before any
fetch; otherwise the file is attached to the form and the fetch runs.  The
chat id, caption and photo-or-document endpoint selection do not influence
any verified claim and are not tracked. -/
def sendTelegramFile (cwd uploadsRoot : List JStr) (filePath : JStr)
    (apiOutcome : Except JStr TgResult) : SendFileResult :=
  let resolvedPath := renderAbs (resolvePath cwd filePath)
  let resolvedUploadsPath := renderAbs uploadsRoot
  if !guardCheck resolvedPath resolvedUploadsPath then
    { readPaths := [], fetchAttempted := false,
      outcome := Except.error "Invalid file path".data }
  else
    { readPaths := [filePath], fetchAttempted := true, outcome := apiOutcome }

/- ===================== Error mappers ===================== -/

/-- A caught JavaScript error as the two error mappers distinguish them:
an upload-library MulterError carrying a code, or any other error carrying
its message (possibly empty). -/
inductive JsError where
  | multerErr (code : JStr) (message : JStr)
  | genericErr (message : JStr)
  deriving DecidableEq

/-- An HTTP JSON response of the server: status code, the success flag and
the message field of the JSON body. -/
structure HttpResponse where
  status : Nat
  success : Bool
  message : JStr
  deriving DecidableEq

/-- The global error handler of src/server.js lines 347-374: the size-limit
MulterError gets the fixed 400 message, any other MulterError a 400 with
its message interpolated, an error whose message contains the
file-type-not-supported text a 400 echoing the message, and anything else
the fixed generic 500. -/
def globalErrorHandler (err : JsError) : HttpResponse :=
  match err with
  | JsError.multerErr code msg =>
    if code = "LIMIT_FILE_SIZE".data then
      { status := 400, success := false,
        message := "File size exceeds 20 MB limit.".data }
    else
      { status := 400, success := false,
        message := "File upload error: ".data ++ msg }
  | JsError.genericErr msg =>
    if !msg.isEmpty && decide ("File type not supported".data <:+: msg) then
      { status := 400, success := false, message := msg }
    else
      { status := 500, success := false,
        message := "An unexpected error occurred.".data }

/-- The catch block of the /send-file handler, src/server.js lines 320-343:
the two MulterError branches match the global handler, but any other error
answers 500 with the message of the error itself when it is nonempty, and
the fixed generic text only as a fallback. -/
def sendFileCatchMapper (err : JsError) : HttpResponse :=
  match err with
  | JsError.multerErr code msg =>
    if code = "LIMIT_FILE_SIZE".data then
      { status := 400, success := false,
        message := "File size exceeds 20 MB limit.".data }
    else
      { status := 400, success := false,
        message := "File upload error: ".data ++ msg }
  | JsError.genericErr msg =>
    { status := 500, success := false,
      message := if msg.isEmpty then
        "An error occurred while processing your request.".data else msg }

/- ===================== Upload configuration ===================== -/

/-- The multer file size limit of src/server.js line 58: 20 megabytes. -/
def maxFileSize : Nat := 20 * 1024 * 1024

/-- The MIME allow-list of src/server.js lines 62-76, in source order. -/
def allowedMimes : List JStr :=
  ["image/jpeg".data, "image/png".data, "image/gif".data, "image/webp".data,
   "image/svg+xml".data,
   "application/pdf".data,
   "application/msword".data,
   "application/vnd.openxmlformats-officedocument.wordprocessingml.document".data,
   "application/vnd.ms-excel".data,
   "application/vnd.openxmlformats-officedocument.spreadsheetml.sheet".data,
   "application/vnd.ms-powerpoint".data,
   "application/vnd.openxmlformats-officedocument.presentationml.presentation".data,
   "text/plain".data,
   "application/zip".data,
   "application/x-rar-compressed".data,
   "video/mp4".data, "video/mpeg".data, "video/quicktime".data,
   "audio/mpeg".data, "audio/wav".data, "audio/ogg".data]

/-- The fileFilter of src/server.js lines 60-84: a file is accepted exactly
when its declared MIME type is in the allow-list. -/
def fileFilterAccepts (mimetype : JStr) : Bool := allowedMimes.contains mimetype

/-- The message of the error the fileFilter passes to multer on a
disallowed MIME type (src/server.js line 81). -/
def fileTypeErrorMessage : JStr :=
  "File type not supported. Please upload images, documents, or common media files.".data

/-- Metadata of one uploaded file, as multer exposes it on the request. -/
structure UploadedFile where
  path : JStr
  originalname : JStr
  mimetype : JStr
  size : Nat
  deriving DecidableEq

/-- Modelled from the spec: the enforcement the multer middleware itself
performs before the /send-file handler body runs.  The multer library is
not repository code; src/server.js lines 55-84 only configure it with the
20 MiB size limit and the fileFilter.  The spec states that requests over
the size limit fail with a size-limit error before the handler body runs,
and that any other MIME type fails with a type-not-supported error, so an
oversized upload yields the LIMIT_FILE_SIZE MulterError and a disallowed
type yields the fileFilter error; an accepted file reaches the handler. -/
def multerMiddleware (file : Option UploadedFile) : Option JsError :=
  match file with
  | none => none
  | some f =>
    if f.size > maxFileSize then
      some (JsError.multerErr "LIMIT_FILE_SIZE".data "File too large".data)
    else if fileFilterAccepts f.mimetype then none
    else some (JsError.genericErr fileTypeErrorMessage)

/- ===================== The send-message handlers ===================== -/

/-- The server configuration read from the environment: the bot token and
chat id variables, absent or holding a string. -/
structure Config where
  botToken : Option JStr
  chatId : Option JStr
  deriving DecidableEq

/-- JavaScript truthiness of an environment variable: it must be present
and nonempty to pass the credential checks. -/
def envTruthy : Option JStr → Bool
  | some s => !s.isEmpty
  | none => false

/-- One outbound sendMessage call to the Telegram bot API: the chat id and
the HTML text of the JSON payload. -/
structure OutboundText where
  chatId : JStr
  text : JStr
  deriving DecidableEq

/-- The JSON body of a POST /send-message request after body parsing:
the three destructured fields, absent ones being undefined. -/
structure MsgRequest where
  name : JsVal
  email : JsVal
  message : JsVal
  deriving DecidableEq

/-- What one run of a /send-message handler produces: the JSON response and
the outbound Telegram calls it made. -/
structure HandlerResult where
  response : HttpResponse
  outbound : List OutboundText
  deriving DecidableEq

/-- The HTML text template of src/server.js lines 202-205. -/
def sendMessageText (n e m : JStr) : JStr :=
  "<b>New Contact Form Message</b>\n\n<b>Name:</b> ".data ++ n ++
  "\n<b>Email:</b> ".data ++ e ++
  "\n<b>Message:</b>\n".data ++ m

/-- Builds one HTTP JSON response value; a shorthand used by the handler
embeddings below. -/
def mkResponse (status : Nat) (success : Bool) (message : JStr) : HttpResponse :=
  { status := status, success := success, message := message }

/-- The POST /send-message handler of src/server.js lines 176-228.  The
apiOutcome argument is the oracle for the awaited fetch of
sendTelegramTextMessage: the parsed Telegram response, or the message of a
thrown transport error, which the catch block turns into the fixed 500. -/
def sendMessageHandler (cfg : Config) (req : MsgRequest)
    (apiOutcome : Except JStr TgResult) : HandlerResult :=
  if !truthy req.name || !truthy req.email || !truthy req.message then
    { response := mkResponse 400 false "Name, email, and message are required.".data,
      outbound := [] }
  else if !envTruthy cfg.botToken || !envTruthy cfg.chatId then
    { response := mkResponse 500 false
        "Server configuration error. Please contact administrator.".data,
      outbound := [] }
  else
    match sanitizeInput req.name, sanitizeInput req.email,
        sanitizeInput req.message with
    | Except.ok sn, Except.ok se, Except.ok sm =>
      let call : OutboundText :=
        { chatId := cfg.chatId.getD [], text := sendMessageText sn se sm }
      match apiOutcome with
      | Except.ok result =>
        if result.ok then
          { response := mkResponse 200 true "Message sent successfully!".data,
            outbound := [call] }
        else
          { response := mkResponse 500 false
              "Failed to send message. Please try again.".data,
            outbound := [call] }
      | Except.error _ =>
        { response := mkResponse 500 false
            "An error occurred while sending your message.".data,
          outbound := [call] }
    | _, _, _ =>
      { response := mkResponse 500 false
          "An error occurred while sending your message.".data,
        outbound := [] }

/-- The HTML text template of src/unnamed/part_000 lines 48-54, a
backquoted template literal with a leading newline, emoji labels and
trailing indentation. -/
def sendMessageText2 (n e m : JStr) : JStr :=
  "\n📩 <b>New Contact Form Submission</b>\n👤 <b>Name:</b> ".data ++ n ++
  "\n📧 <b>Email:</b> ".data ++ e ++
  "\n💬 <b>Message:</b>\n".data ++ m ++
  "\n        ".data

/-- The POST /send-message handler of src/unnamed/part_000 lines 38-82.
This deployment checks its credentials once at startup (exiting the
process when they are absent), so the handler itself performs no field
validation and no credential check: it sanitizes whatever arrived and
always attempts the outbound call. -/
def sendMessageHandler2 (chatId : JStr) (req : MsgRequest)
    (apiOutcome : Except JStr TgResult) : HandlerResult :=
  let sn := sanitizeInput2 req.name
  let se := sanitizeInput2 req.email
  let sm := sanitizeInput2 req.message
  let call : OutboundText := { chatId := chatId, text := sendMessageText2 sn se sm }
  match apiOutcome with
  | Except.ok result =>
    if result.ok then
      { response := mkResponse 200 true "Message sent successfully!".data,
        outbound := [call] }
    else
      { response := mkResponse 500 false "Failed to send message.".data,
        outbound := [call] }
  | Except.error _ =>
    { response := mkResponse 500 false "An error occurred.".data,
      outbound := [call] }

/- ===================== The send-file handler ===================== -/

/-- The parsed body of a POST /send-file multipart request: the three
destructured text fields and the optional uploaded file multer attached. -/
structure FileRequest where
  name : JsVal
  email : JsVal
  explanation : JsVal
  file : Option UploadedFile
  deriving DecidableEq

/-- What one run of the /send-file handler body produces: the JSON
response, the paths passed to removeFile, and how many outbound fetches to
the Telegram API were attempted. -/
structure FileHandlerResult where
  response : HttpResponse
  removeCalls : List JStr
  outboundFetches : Nat
  deriving DecidableEq

/-- The removeFile calls of the fail-fast branches of the /send-file
handler: if a file object is present, its path is handed to removeFile. -/
def removeIfPresent : Option UploadedFile → List JStr
  | some f => [f.path]
  | none => []

/-- The message of the TypeError thrown when a replace call is made on a
truthy non-string field value inside the handler's try block. -/
def typeErrorMessage : JStr := "text.replace is not a function".data

/-- The POST /send-file handler body of src/server.js lines 231-344.  The
tracked filePath variable starts null and is set to the file path just
before the send; the catch block calls removeFile only when that variable
is truthy, so the guard of the catch is the emptiness of the path.  The
caption building of lines 266-272 and the photo-or-document choice of line
275 affect only the form contents and are not tracked.  The apiOutcome
oracle plays the same role as in sendMessageHandler. -/
def sendFileHandler (cwd uploadsRoot : List JStr) (cfg : Config)
    (req : FileRequest) (apiOutcome : Except JStr TgResult) : FileHandlerResult :=
  if !truthy req.name || !truthy req.email then
    { response := mkResponse 400 false "Name and email are required.".data,
      removeCalls := removeIfPresent req.file,
      outboundFetches := 0 }
  else if !envTruthy cfg.botToken || !envTruthy cfg.chatId then
    { response := mkResponse 500 false
        "Server configuration error. Please contact administrator.".data,
      removeCalls := removeIfPresent req.file,
      outboundFetches := 0 }
  else
    match sanitizeInput req.name, sanitizeInput req.email,
        sanitizeInput req.explanation with
    | Except.ok _, Except.ok _, Except.ok _ =>
      match req.file with
      | some file =>
        let send := sendTelegramFile cwd uploadsRoot file.path apiOutcome
        match send.outcome with
        | Except.ok result =>
          if result.ok then
            { response := mkResponse 200 true
                "File and information sent successfully!".data,
              removeCalls := [file.path],
              outboundFetches := 1 }
          else
            { response := mkResponse 500 false
                "Failed to send file. Please try again.".data,
              removeCalls := [file.path],
              outboundFetches := 1 }
        | Except.error e =>
          { response := sendFileCatchMapper (JsError.genericErr e),
            removeCalls := if file.path.isEmpty then [] else [file.path],
            outboundFetches := if send.fetchAttempted then 1 else 0 }
      | none =>
        match apiOutcome with
        | Except.ok result =>
          if result.ok then
            { response := mkResponse 200 true "Message sent successfully!".data,
              removeCalls := [],
              outboundFetches := 1 }
          else
            { response := mkResponse 500 false
                "Failed to send message. Please try again.".data,
              removeCalls := [],
              outboundFetches := 1 }
        | Except.error e =>
          { response := sendFileCatchMapper (JsError.genericErr e),
            removeCalls := [],
            outboundFetches := 1 }
    | _, _, _ =>
      { response := sendFileCatchMapper (JsError.genericErr typeErrorMessage),
        removeCalls := [],
        outboundFetches := 0 }

/-- Outcome of a whole POST /send-file request: the middleware result and,
when the middleware accepted the upload, the handler body result. -/
structure PipelineResult where
  response : HttpResponse
  handlerRan : Bool
  removeCalls : List JStr
  outboundFetches : Nat
  deriving DecidableEq

/-- A whole POST /send-file request: the multer middleware runs first, a
middleware error skips the handler body and is answered by the global
error handler of src/server.js lines 347-374; otherwise the handler body
of lines 231-344 runs. -/
def sendFilePipeline (cwd uploadsRoot : List JStr) (cfg : Config)
    (req : FileRequest) (apiOutcome : Except JStr TgResult) : PipelineResult :=
  match multerMiddleware req.file with
  | some err =>
    { response := globalErrorHandler err, handlerRan := false,
      removeCalls := [], outboundFetches := 0 }
  | none =>
    let h := sendFileHandler cwd uploadsRoot cfg req apiOutcome
    { response := h.response, handlerRan := true,
      removeCalls := h.removeCalls, outboundFetches := h.outboundFetches }

/-- A multipart text field as multer parses it: an absent field
destructures to undefined, a present one is always a string. -/
def multipartField : JsVal → Bool
  | JsVal.vstr _ => true
  | JsVal.vundefined => true
  | _ => false

/- ===================== Claim theorems ===================== -/

/-- C1: for every candidate file path whose resolved, canonical form is not
a descendant of the uploads temp directory (descent meaning the
prefix-with-separator containment the guard decides, the root itself
counting as inside), the guarded file operations refuse to touch it:
removeFile returns without deleting anything and logs the violation, and
sendTelegramFile throws the fixed Invalid file path error before opening
any read stream and before any fetch, so the outside path is never read
and never deleted. -/
theorem outside_path_never_read_or_deleted
    (cwd uploadsRoot : List JStr) (filePath : JStr)
    (fileExists : Bool) (apiOutcome : Except JStr TgResult)
    (hcwd : validComps cwd = true) (hroot : validComps uploadsRoot = true)
    (houtside : ¬ isDescendantOf (resolvePath cwd filePath) uploadsRoot) :
    removeFile cwd uploadsRoot filePath fileExists =
      { deleted := false, loggedViolation := true } ∧
    sendTelegramFile cwd uploadsRoot filePath apiOutcome =
      { readPaths := [], fetchAttempted := false,
        outcome := Except.error "Invalid file path".data } := by
  have hvp := validComps_resolvePath cwd filePath hcwd
  have hguard : guardCheck (renderAbs (resolvePath cwd filePath))
      (renderAbs uploadsRoot) = false := by
    rw [← Bool.not_eq_true]
    intro habs
    exact houtside ((guardCheck_eq_true_iff _ _ hvp hroot).mp habs)
  constructor
  · simp [removeFile, hguard]
  · simp [sendTelegramFile, hguard]

/-- C1 witness: a concrete candidate outside the uploads root is refused by
both operations. -/
theorem outside_path_never_read_or_deleted_witness :
    validComps [] = true ∧ validComps [['u']] = true ∧
    ¬ isDescendantOf (resolvePath [] "/x".data) [['u']] ∧
    removeFile [] [['u']] "/x".data true =
      { deleted := false, loggedViolation := true } ∧
    sendTelegramFile [] [['u']] "/x".data (Except.ok { ok := true }) =
      { readPaths := [], fetchAttempted := false,
        outcome := Except.error "Invalid file path".data } := by
  refine ⟨by decide, by decide, by decide, ?_⟩
  exact outside_path_never_read_or_deleted [] [['u']] "/x".data true
    (Except.ok { ok := true }) (by decide) (by decide) (by decide)

/-- C10: a candidate path whose resolved, canonical form equals the uploads
root itself passes the prefix-containment check of both removeFile and
sendTelegramFile, because the resolved path with a separator appended
starts with the root with a separator appended when the two are equal; so
removeFile proceeds to deletion and sendTelegramFile proceeds to open the
read stream. -/
theorem guard_accepts_uploads_root
    (cwd uploadsRoot : List JStr) (filePath : JStr)
    (fileExists : Bool) (apiOutcome : Except JStr TgResult)
    (hroot : validComps uploadsRoot = true)
    (heq : resolvePath cwd filePath = uploadsRoot) :
    guardCheck (renderAbs (resolvePath cwd filePath)) (renderAbs uploadsRoot) = true ∧
    removeFile cwd uploadsRoot filePath fileExists =
      { deleted := fileExists, loggedViolation := false } ∧
    sendTelegramFile cwd uploadsRoot filePath apiOutcome =
      { readPaths := [filePath], fetchAttempted := true, outcome := apiOutcome } := by
  have hguard : guardCheck (renderAbs (resolvePath cwd filePath))
      (renderAbs uploadsRoot) = true := by
    rw [heq]
    exact (guardCheck_eq_true_iff uploadsRoot uploadsRoot hroot hroot).mpr
      List.prefix_rfl
  refine ⟨hguard, ?_, ?_⟩
  · simp [removeFile, hguard]
  · simp [sendTelegramFile, hguard]

/-- C10 witness: a concrete candidate that resolves to the uploads root
itself is accepted, deleted and read. -/
theorem guard_accepts_uploads_root_witness :
    validComps [['u']] = true ∧
    resolvePath [] "/u".data = [['u']] ∧
    removeFile [] [['u']] "/u".data true =
      { deleted := true, loggedViolation := false } ∧
    sendTelegramFile [] [['u']] "/u".data (Except.ok { ok := true }) =
      { readPaths := ["/u".data], fetchAttempted := true,
        outcome := Except.ok { ok := true } } := by
  refine ⟨by decide, by decide, ?_⟩
  have h := guard_accepts_uploads_root [] [['u']] "/u".data true
    (Except.ok { ok := true }) (by decide) (by decide)
  exact ⟨h.2.1, h.2.2⟩

lemma truthy_vstr_of_ne (s : JStr) (h : s ≠ []) : truthy (JsVal.vstr s) = true := by
  cases s with
  | nil => exact absurd rfl h
  | cons a t => rfl

lemma sanitizeInput_falsy (v : JsVal) (hv : truthy v = false) :
    sanitizeInput v = Except.ok [] := by
  simp [sanitizeInput, hv]

lemma sanitizeInput_vstr (s : JStr) :
    sanitizeInput (JsVal.vstr s) = Except.ok (escapeHtml s) := by
  cases s with
  | nil => rfl
  | cons a t => rfl

lemma sanitizeInput2_nonstr (v : JsVal) (hv : ∀ s, v ≠ JsVal.vstr s) :
    sanitizeInput2 v = [] := by
  cases v with
  | vstr s => exact absurd rfl (hv s)
  | vnum n => rfl
  | vbool b => rfl
  | vnull => rfl
  | vundefined => rfl

lemma sanitizeInput_multipart (v : JsVal) (hv : multipartField v = true) :
    ∃ s, sanitizeInput v = Except.ok s := by
  cases v with
  | vstr s => exact ⟨escapeHtml s, sanitizeInput_vstr s⟩
  | vnum n => simp [multipartField] at hv
  | vbool b => simp [multipartField] at hv
  | vnull => simp [multipartField] at hv
  | vundefined => exact ⟨[], rfl⟩

/-- C3 counterexample: sanitizeInput of src/server.js is not total.  A
truthy non-string field value, such as the number 1 arriving in a JSON
body, passes the falsiness guard and then calls replace on a value that
has no replace method, so the call throws instead of returning a string. -/
theorem sanitizeInput_throws_on_truthy_number :
    sanitizeInput (JsVal.vnum 1) = Except.error () := by
  rfl

/-- C3 amended: the sanitizer of the second deployment is total and returns
the empty string on every non-string input; the server.js sanitizer
returns the empty string on every falsy input and escapes every string
input, but throws on truthy non-string input.  On string input both are
total and deterministic: every left angle bracket becomes the lt entity,
every right angle bracket the gt entity, every other character is kept
unchanged, and the output contains no raw angle bracket. -/
theorem sanitize_behaviour_amended :
    (∀ v, truthy v = false → sanitizeInput v = Except.ok []) ∧
    (∀ s : JStr, sanitizeInput (JsVal.vstr s) = Except.ok (escapeHtml s)) ∧
    (∀ v, (∀ s, v ≠ JsVal.vstr s) → sanitizeInput2 v = []) ∧
    (∀ s : JStr, sanitizeInput2 (JsVal.vstr s) = escapeHtml s) ∧
    (∀ s : JStr, escapeHtml s = s.flatMap escapeChar) ∧
    escapeChar '<' = "&lt;".data ∧ escapeChar '>' = "&gt;".data ∧
    (∀ c, c ≠ '<' → c ≠ '>' → escapeChar c = [c]) ∧
    (∀ s : JStr, '<' ∉ escapeHtml s ∧ '>' ∉ escapeHtml s) :=
  ⟨sanitizeInput_falsy, sanitizeInput_vstr, sanitizeInput2_nonstr,
   fun _ => rfl, escapeHtml_eq_flatMap, by decide, by decide,
   escapeChar_of_other, escapeHtml_no_angle⟩

/-- C3 witness: the amended behaviour at concrete inputs, with both angle
brackets escaped in a concrete string and a falsy input mapped to the
empty string. -/
theorem sanitize_behaviour_amended_witness :
    sanitizeInput (JsVal.vstr "<b>".data) = Except.ok "&lt;b&gt;".data ∧
    sanitizeInput JsVal.vnull = Except.ok [] := by
  constructor
  · rw [sanitize_behaviour_amended.2.1 "<b>".data]
    decide
  · exact sanitize_behaviour_amended.1 JsVal.vnull (by decide)

/-- C5 counterexample: in the catch block of the /send-file handler, an
error that is neither a MulterError nor small enough to be swallowed is
answered 500 with the message of the error itself, not with one fixed
generic message: two different errors produce two different 500 bodies. -/
theorem catch_mapper_message_depends_on_error :
    sendFileCatchMapper (JsError.genericErr "Invalid file path".data) =
      { status := 500, success := false, message := "Invalid file path".data } ∧
    (sendFileCatchMapper (JsError.genericErr "Invalid file path".data)).message ≠
      (sendFileCatchMapper (JsError.genericErr "socket hang up".data)).message := by
  decide

/-- C5 amended: both error mappers classify every caught error into exactly
one JSON response.  In the global error handler the size-limit MulterError
maps to the fixed 400 message, any other MulterError to 400 with its
message interpolated, an error message containing the
file-type-not-supported text to 400, and anything else to the fixed
generic 500.  The catch block of /send-file agrees on the MulterError
branches, but maps any other error to 500 carrying the message of the
error itself when it is nonempty, falling back to its fixed text only for
an empty message; its type-not-supported 400 branch does not exist there. -/
theorem error_mapper_classification :
    (∀ msg, globalErrorHandler (JsError.multerErr "LIMIT_FILE_SIZE".data msg) =
      { status := 400, success := false,
        message := "File size exceeds 20 MB limit.".data }) ∧
    (∀ code msg, code ≠ "LIMIT_FILE_SIZE".data →
      globalErrorHandler (JsError.multerErr code msg) =
      { status := 400, success := false,
        message := "File upload error: ".data ++ msg }) ∧
    (∀ msg, msg ≠ [] → "File type not supported".data <:+: msg →
      globalErrorHandler (JsError.genericErr msg) =
      { status := 400, success := false, message := msg }) ∧
    (∀ msg, ¬ ("File type not supported".data <:+: msg) →
      globalErrorHandler (JsError.genericErr msg) =
      { status := 500, success := false,
        message := "An unexpected error occurred.".data }) ∧
    (∀ code msg, sendFileCatchMapper (JsError.multerErr code msg) =
      globalErrorHandler (JsError.multerErr code msg)) ∧
    (∀ msg, msg ≠ [] → sendFileCatchMapper (JsError.genericErr msg) =
      { status := 500, success := false, message := msg }) ∧
    sendFileCatchMapper (JsError.genericErr []) =
      { status := 500, success := false,
        message := "An error occurred while processing your request.".data } := by
  refine ⟨?_, ?_, ?_, ?_, ?_, ?_, rfl⟩
  · intro msg
    simp [globalErrorHandler]
  · intro code msg hne
    simp [globalErrorHandler, hne]
  · intro msg hne hinf
    have h1 : msg.isEmpty = false := by
      cases hv : msg with
      | nil => exact absurd hv hne
      | cons a t => rfl
    simp [globalErrorHandler, h1, hinf]
  · intro msg hninf
    simp only [globalErrorHandler]
    rw [if_neg]
    intro habs
    rw [Bool.and_eq_true_iff] at habs
    exact hninf (of_decide_eq_true habs.2)
  · intro code msg
    by_cases hc : code = "LIMIT_FILE_SIZE".data
    · simp [sendFileCatchMapper, globalErrorHandler, hc]
    · simp [sendFileCatchMapper, globalErrorHandler, hc]
  · intro msg hne
    have h1 : msg.isEmpty = false := by
      cases hv : msg with
      | nil => exact absurd hv hne
      | cons a t => rfl
    simp [sendFileCatchMapper, h1]

/-- C5 witness: the classification at concrete errors. -/
theorem error_mapper_classification_witness :
    globalErrorHandler (JsError.multerErr "LIMIT_FILE_SIZE".data []) =
      { status := 400, success := false,
        message := "File size exceeds 20 MB limit.".data } ∧
    globalErrorHandler (JsError.genericErr "boom".data) =
      { status := 500, success := false,
        message := "An unexpected error occurred.".data } := by
  constructor
  · exact error_mapper_classification.1 []
  · exact error_mapper_classification.2.2.2.1 "boom".data (by decide)

/-- C6: an uploaded file is accepted by the fileFilter exactly when its
declared MIME type is one of the 21 entries of the allow-list of
src/server.js lines 62-76; any other type is turned into the
type-not-supported error, which the global error handler answers with a
400 carrying that message. -/
theorem mime_allowlist_exact :
    (∀ m : JStr, fileFilterAccepts m = true ↔
      m ∈ ["image/jpeg".data, "image/png".data, "image/gif".data,
        "image/webp".data, "image/svg+xml".data, "application/pdf".data,
        "application/msword".data,
        "application/vnd.openxmlformats-officedocument.wordprocessingml.document".data,
        "application/vnd.ms-excel".data,
        "application/vnd.openxmlformats-officedocument.spreadsheetml.sheet".data,
        "application/vnd.ms-powerpoint".data,
        "application/vnd.openxmlformats-officedocument.presentationml.presentation".data,
        "text/plain".data, "application/zip".data,
        "application/x-rar-compressed".data, "video/mp4".data,
        "video/mpeg".data, "video/quicktime".data, "audio/mpeg".data,
        "audio/wav".data, "audio/ogg".data]) ∧
    allowedMimes.length = 21 ∧
    globalErrorHandler (JsError.genericErr fileTypeErrorMessage) =
      { status := 400, success := false, message := fileTypeErrorMessage } ∧
    "File type not supported".data <:+: fileTypeErrorMessage := by
  refine ⟨?_, rfl, by decide, by decide⟩
  intro m
  rw [fileFilterAccepts, allowedMimes]
  simp

/-- C6 witness: a concrete allowed type is accepted. -/
theorem mime_allowlist_exact_witness :
    fileFilterAccepts "image/png".data = true :=
  (mime_allowlist_exact.1 "image/png".data).mpr (by decide)

/-- C7: a POST /send-file request whose file exceeds the 20 MiB limit of
src/server.js line 58 is answered by the multer middleware and the global
error handler with the fixed 400 size-limit response before the handler
body runs; no removeFile call and no outbound fetch happen, and the limit
is exactly 20 times 1024 times 1024 bytes. -/
theorem oversize_rejected_before_handler
    (cwd uploadsRoot : List JStr) (cfg : Config) (req : FileRequest)
    (apiOutcome : Except JStr TgResult) (f : UploadedFile)
    (hfile : req.file = some f) (hsize : f.size > maxFileSize) :
    sendFilePipeline cwd uploadsRoot cfg req apiOutcome =
      { response := mkResponse 400 false "File size exceeds 20 MB limit.".data,
        handlerRan := false, removeCalls := [], outboundFetches := 0 } ∧
    maxFileSize = 20 * 1024 * 1024 := by
  refine ⟨?_, rfl⟩
  simp [sendFilePipeline, multerMiddleware, hfile, hsize, globalErrorHandler,
    mkResponse]

/-- C7 witness: a file one byte over the limit is rejected with the fixed
400 response and the handler body never runs. -/
theorem oversize_rejected_before_handler_witness :
    sendFilePipeline [] [['u']]
      { botToken := some "t".data, chatId := some "c".data }
      { name := JsVal.vstr "n".data, email := JsVal.vstr "e".data,
        explanation := JsVal.vundefined,
        file := some
          { path := "/u/f".data, originalname := "f".data,
            mimetype := "image/png".data, size := 20 * 1024 * 1024 + 1 } }
      (Except.ok { ok := true }) =
      { response := mkResponse 400 false "File size exceeds 20 MB limit.".data,
        handlerRan := false, removeCalls := [], outboundFetches := 0 } :=
  (oversize_rejected_before_handler [] [['u']]
    { botToken := some "t".data, chatId := some "c".data }
    { name := JsVal.vstr "n".data, email := JsVal.vstr "e".data,
      explanation := JsVal.vundefined,
      file := some
        { path := "/u/f".data, originalname := "f".data,
          mimetype := "image/png".data, size := 20 * 1024 * 1024 + 1 } }
    (Except.ok { ok := true })
    { path := "/u/f".data, originalname := "f".data,
      mimetype := "image/png".data, size := 20 * 1024 * 1024 + 1 }
    rfl (by decide)).1

/-- C4 counterexample: the /send-message handler of the second deployment
performs no field validation, so a request with the name field absent is
not answered 400 and the outbound call to the bot API is still made. -/
theorem deploy2_missing_field_still_calls :
    (sendMessageHandler2 "c".data
      { name := JsVal.vundefined, email := JsVal.vstr "e".data,
        message := JsVal.vstr "m".data }
      (Except.ok { ok := true })).response.status = 200 ∧
    (sendMessageHandler2 "c".data
      { name := JsVal.vundefined, email := JsVal.vstr "e".data,
        message := JsVal.vstr "m".data }
      (Except.ok { ok := true })).outbound.length = 1 := by
  decide

/-- C4 amended: for the /send-message handler of src/server.js a request
with any of the three fields absent (or otherwise falsy) is answered 400
with the structured error body and no outbound call is made; the handler
of the second deployment performs no field validation and makes exactly
one outbound call on every request. -/
theorem send_message_missing_field_400
    (cfg : Config) (req : MsgRequest) (apiOutcome apiOutcome2 : Except JStr TgResult)
    (chatId2 : JStr)
    (h : truthy req.name = false ∨ truthy req.email = false ∨
      truthy req.message = false) :
    sendMessageHandler cfg req apiOutcome =
      { response := mkResponse 400 false
          "Name, email, and message are required.".data,
        outbound := [] } ∧
    (sendMessageHandler2 chatId2 req apiOutcome2).outbound.length = 1 := by
  constructor
  · have hcond : (!truthy req.name || !truthy req.email || !truthy req.message)
        = true := by
      rcases h with h | h | h <;> simp [h]
    simp [sendMessageHandler, hcond]
  · cases apiOutcome2 with
    | ok r =>
      by_cases hok : r.ok
      · simp [sendMessageHandler2, hok]
      · simp [sendMessageHandler2, hok]
    | error e => simp [sendMessageHandler2]

/-- C4 witness: the amended statement at a concrete request with the email
field absent. -/
theorem send_message_missing_field_400_witness :
    sendMessageHandler { botToken := some "t".data, chatId := some "c".data }
      { name := JsVal.vstr "n".data, email := JsVal.vundefined,
        message := JsVal.vstr "m".data }
      (Except.ok { ok := true }) =
      { response := mkResponse 400 false
          "Name, email, and message are required.".data,
        outbound := [] } :=
  (send_message_missing_field_400
    { botToken := some "t".data, chatId := some "c".data }
    { name := JsVal.vstr "n".data, email := JsVal.vundefined,
      message := JsVal.vstr "m".data }
    (Except.ok { ok := true }) (Except.ok { ok := true }) "c".data
    (Or.inr (Or.inl rfl))).1

/-- C8: for a valid /send-message request (all three fields nonempty
strings, both secrets configured), an external response with ok true is
answered 200 with success true, and one with ok false is answered 500 with
success false; this holds in both deployments, with their respective
response messages. -/
theorem send_message_maps_ok_to_status
    (cfg : Config) (req : MsgRequest) (chatId2 : JStr) (r : TgResult)
    (ns es ms : JStr)
    (hn : req.name = JsVal.vstr ns) (hn2 : ns ≠ [])
    (he : req.email = JsVal.vstr es) (he2 : es ≠ [])
    (hm : req.message = JsVal.vstr ms) (hm2 : ms ≠ [])
    (hbt : envTruthy cfg.botToken = true) (hci : envTruthy cfg.chatId = true) :
    (r.ok = true → (sendMessageHandler cfg req (Except.ok r)).response =
      mkResponse 200 true "Message sent successfully!".data) ∧
    (r.ok = false → (sendMessageHandler cfg req (Except.ok r)).response =
      mkResponse 500 false "Failed to send message. Please try again.".data) ∧
    (r.ok = true → (sendMessageHandler2 chatId2 req (Except.ok r)).response =
      mkResponse 200 true "Message sent successfully!".data) ∧
    (r.ok = false → (sendMessageHandler2 chatId2 req (Except.ok r)).response =
      mkResponse 500 false "Failed to send message.".data) := by
  have h1 : truthy (JsVal.vstr ns) = true := truthy_vstr_of_ne ns hn2
  have h2 : truthy (JsVal.vstr es) = true := truthy_vstr_of_ne es he2
  have h3 : truthy (JsVal.vstr ms) = true := truthy_vstr_of_ne ms hm2
  refine ⟨?_, ?_, ?_, ?_⟩
  · intro hok
    simp [sendMessageHandler, h1, h2, h3, hbt, hci, hn, he, hm,
      sanitizeInput_vstr, hok]
  · intro hok
    simp [sendMessageHandler, h1, h2, h3, hbt, hci, hn, he, hm,
      sanitizeInput_vstr, hok]
  · intro hok
    simp [sendMessageHandler2, hok]
  · intro hok
    simp [sendMessageHandler2, hok]

/-- C8 witness: the mapping at a concrete valid request against both a
successful and a failed external response. -/
theorem send_message_maps_ok_to_status_witness :
    (sendMessageHandler { botToken := some "t".data, chatId := some "c".data }
      { name := JsVal.vstr "n".data, email := JsVal.vstr "e".data,
        message := JsVal.vstr "m".data }
      (Except.ok { ok := true })).response =
      mkResponse 200 true "Message sent successfully!".data ∧
    (sendMessageHandler { botToken := some "t".data, chatId := some "c".data }
      { name := JsVal.vstr "n".data, email := JsVal.vstr "e".data,
        message := JsVal.vstr "m".data }
      (Except.ok { ok := false })).response =
      mkResponse 500 false "Failed to send message. Please try again.".data := by
  constructor
  · exact (send_message_maps_ok_to_status
      { botToken := some "t".data, chatId := some "c".data }
      { name := JsVal.vstr "n".data, email := JsVal.vstr "e".data,
        message := JsVal.vstr "m".data }
      "c".data { ok := true } "n".data "e".data "m".data
      rfl (by decide) rfl (by decide) rfl (by decide) rfl rfl).1 rfl
  · exact (send_message_maps_ok_to_status
      { botToken := some "t".data, chatId := some "c".data }
      { name := JsVal.vstr "n".data, email := JsVal.vstr "e".data,
        message := JsVal.vstr "m".data }
      "c".data { ok := false } "n".data "e".data "m".data
      rfl (by decide) rfl (by decide) rfl (by decide) rfl rfl).2.1 rfl

/-- C9 counterexample: the two /send-message pipelines are not behaviorally
equivalent.  On a request whose message field is absent, with both secrets
configured and the external API answering ok, src/server.js answers 400
and makes no outbound call while the second deployment makes one outbound
call and answers 200. -/
theorem pipelines_diverge_on_missing_message :
    sendMessageHandler { botToken := some "t".data, chatId := some "c".data }
      { name := JsVal.vstr "A".data, email := JsVal.vstr "E".data,
        message := JsVal.vundefined }
      (Except.ok { ok := true }) =
      { response := mkResponse 400 false
          "Name, email, and message are required.".data,
        outbound := [] } ∧
    (sendMessageHandler2 "c".data
      { name := JsVal.vstr "A".data, email := JsVal.vstr "E".data,
        message := JsVal.vundefined }
      (Except.ok { ok := true })).response.status = 200 ∧
    (sendMessageHandler2 "c".data
      { name := JsVal.vstr "A".data, email := JsVal.vstr "E".data,
        message := JsVal.vundefined }
      (Except.ok { ok := true })).outbound.length = 1 := by
  refine ⟨?_, by decide, by decide⟩
  decide

/-- C9 amended: the two deployments agree on every well-formed request,
that is, one whose three fields are nonempty strings, under a configured
server: the two sanitizers give the same output on every string (and on
every falsy value), both handlers make exactly one outbound call, and the
HTTP status and success flag of the two responses are equal.  They diverge
on requests with a missing field (the counterexample) and on truthy
non-string field values, and their response message texts and outbound
message templates differ. -/
theorem pipelines_agree_on_wellformed
    (cfg : Config) (chatId2 : JStr) (req : MsgRequest) (r : TgResult)
    (ns es ms : JStr)
    (hn : req.name = JsVal.vstr ns) (hn2 : ns ≠ [])
    (he : req.email = JsVal.vstr es) (he2 : es ≠ [])
    (hm : req.message = JsVal.vstr ms) (hm2 : ms ≠ [])
    (hbt : envTruthy cfg.botToken = true) (hci : envTruthy cfg.chatId = true) :
    (sendMessageHandler cfg req (Except.ok r)).response.status =
      (sendMessageHandler2 chatId2 req (Except.ok r)).response.status ∧
    (sendMessageHandler cfg req (Except.ok r)).response.success =
      (sendMessageHandler2 chatId2 req (Except.ok r)).response.success ∧
    (sendMessageHandler cfg req (Except.ok r)).outbound.length = 1 ∧
    (sendMessageHandler2 chatId2 req (Except.ok r)).outbound.length = 1 ∧
    (∀ s : JStr, sanitizeInput (JsVal.vstr s) =
      Except.ok (sanitizeInput2 (JsVal.vstr s))) ∧
    (∀ v, truthy v = false → sanitizeInput v = Except.ok (sanitizeInput2 v)) := by
  have h1 : truthy (JsVal.vstr ns) = true := truthy_vstr_of_ne ns hn2
  have h2 : truthy (JsVal.vstr es) = true := truthy_vstr_of_ne es he2
  have h3 : truthy (JsVal.vstr ms) = true := truthy_vstr_of_ne ms hm2
  refine ⟨?_, ?_, ?_, ?_, ?_, ?_⟩
  · by_cases hok : r.ok
    · simp [sendMessageHandler, sendMessageHandler2, h1, h2, h3, hbt, hci,
        hn, he, hm, sanitizeInput_vstr, hok, mkResponse]
    · simp [sendMessageHandler, sendMessageHandler2, h1, h2, h3, hbt, hci,
        hn, he, hm, sanitizeInput_vstr, hok, mkResponse]
  · by_cases hok : r.ok
    · simp [sendMessageHandler, sendMessageHandler2, h1, h2, h3, hbt, hci,
        hn, he, hm, sanitizeInput_vstr, hok, mkResponse]
    · simp [sendMessageHandler, sendMessageHandler2, h1, h2, h3, hbt, hci,
        hn, he, hm, sanitizeInput_vstr, hok, mkResponse]
  · by_cases hok : r.ok
    · simp [sendMessageHandler, h1, h2, h3, hbt, hci, hn, he, hm,
        sanitizeInput_vstr, hok]
    · simp [sendMessageHandler, h1, h2, h3, hbt, hci, hn, he, hm,
        sanitizeInput_vstr, hok]
  · by_cases hok : r.ok
    · simp [sendMessageHandler2, hok]
    · simp [sendMessageHandler2, hok]
  · intro s
    rw [sanitizeInput_vstr]
    rfl
  · intro v hv
    rw [sanitizeInput_falsy v hv]
    cases v with
    | vstr s =>
      have hs : s = [] := by
        by_cases hempty : s = []
        · exact hempty
        · rw [truthy_vstr_of_ne s hempty] at hv
          exact absurd hv (by decide)
      rw [hs]
      rfl
    | vnum n => rfl
    | vbool b => rfl
    | vnull => rfl
    | vundefined => rfl

/-- C9 witness: the agreement at a concrete well-formed request. -/
theorem pipelines_agree_on_wellformed_witness :
    (sendMessageHandler { botToken := some "t".data, chatId := some "c".data }
      { name := JsVal.vstr "A".data, email := JsVal.vstr "E".data,
        message := JsVal.vstr "M".data }
      (Except.ok { ok := true })).response.status =
    (sendMessageHandler2 "c".data
      { name := JsVal.vstr "A".data, email := JsVal.vstr "E".data,
        message := JsVal.vstr "M".data }
      (Except.ok { ok := true })).response.status :=
  (pipelines_agree_on_wellformed
    { botToken := some "t".data, chatId := some "c".data } "c".data
    { name := JsVal.vstr "A".data, email := JsVal.vstr "E".data,
      message := JsVal.vstr "M".data }
    { ok := true } "A".data "E".data "M".data
    rfl (by decide) rfl (by decide) rfl (by decide) rfl rfl).1

/-- C2: for every POST /send-file request in which an upload was saved to
disk (the file object is present, its multer-generated path is nonempty,
and the multipart text fields are strings or absent), the handler body
invokes removeFile on that path exactly once on every exit path: the
missing-field rejection, the missing-configuration rejection, a successful
send, a failed send, and any caught exception; and whenever the saved path
resolves inside the uploads root the invoked removeFile call does delete
the file from disk. -/
theorem send_file_always_removes
    (cwd uploadsRoot : List JStr) (cfg : Config) (req : FileRequest)
    (apiOutcome : Except JStr TgResult) (f : UploadedFile) (fileExists : Bool)
    (hfile : req.file = some f) (hpath : f.path ≠ [])
    (hn : multipartField req.name = true) (he : multipartField req.email = true)
    (hx : multipartField req.explanation = true)
    (hcwd : validComps cwd = true) (hroot : validComps uploadsRoot = true) :
    (sendFileHandler cwd uploadsRoot cfg req apiOutcome).removeCalls = [f.path] ∧
    (isDescendantOf (resolvePath cwd f.path) uploadsRoot →
      (removeFile cwd uploadsRoot f.path fileExists).deleted = fileExists ∧
      (removeFile cwd uploadsRoot f.path fileExists).loggedViolation = false) := by
  constructor
  · obtain ⟨sn, hsn⟩ := sanitizeInput_multipart req.name hn
    obtain ⟨se, hse⟩ := sanitizeInput_multipart req.email he
    obtain ⟨sx, hsx⟩ := sanitizeInput_multipart req.explanation hx
    have hpe : f.path.isEmpty = false := by
      cases hv : f.path with
      | nil => exact absurd hv hpath
      | cons a t => rfl
    by_cases hc1 : (!truthy req.name || !truthy req.email) = true
    · simp [sendFileHandler, hc1, hfile, removeIfPresent]
    · have hc1f : (!truthy req.name || !truthy req.email) = false :=
        Bool.eq_false_iff.mpr hc1
      by_cases hc2 : (!envTruthy cfg.botToken || !envTruthy cfg.chatId) = true
      · simp [sendFileHandler, hc1f, hc2, hfile, removeIfPresent]
      · have hc2f : (!envTruthy cfg.botToken || !envTruthy cfg.chatId) = false :=
          Bool.eq_false_iff.mpr hc2
        simp only [sendFileHandler, hc1f, hc2f, hfile, hsn, hse, hsx,
          Bool.false_eq_true, if_false]
        cases houtc : (sendTelegramFile cwd uploadsRoot f.path apiOutcome).outcome with
        | ok result =>
          by_cases hok : result.ok
          · simp [houtc, hok]
          · simp [houtc, hok]
        | error e =>
          simp [houtc, hpe]
  · intro hdesc
    have hvp := validComps_resolvePath cwd f.path hcwd
    have hguard : guardCheck (renderAbs (resolvePath cwd f.path))
        (renderAbs uploadsRoot) = true :=
      (guardCheck_eq_true_iff _ _ hvp hroot).mpr hdesc
    constructor
    · simp [removeFile, hguard]
    · simp [removeFile, hguard]

/-- C2 witness: at a concrete request carrying a saved upload inside the
uploads root, the handler invokes removeFile on the upload path and the
call deletes the file. -/
theorem send_file_always_removes_witness :
    (sendFileHandler [] [['u']]
      { botToken := some "t".data, chatId := some "c".data }
      { name := JsVal.vstr "n".data, email := JsVal.vstr "e".data,
        explanation := JsVal.vundefined,
        file := some
          { path := "/u/f".data, originalname := "f".data,
            mimetype := "image/png".data, size := 1 } }
      (Except.ok { ok := true })).removeCalls = ["/u/f".data] ∧
    (removeFile [] [['u']] "/u/f".data true).deleted = true := by
  have h := send_file_always_removes [] [['u']]
    { botToken := some "t".data, chatId := some "c".data }
    { name := JsVal.vstr "n".data, email := JsVal.vstr "e".data,
      explanation := JsVal.vundefined,
      file := some
        { path := "/u/f".data, originalname := "f".data,
          mimetype := "image/png".data, size := 1 } }
    (Except.ok { ok := true })
    { path := "/u/f".data, originalname := "f".data,
      mimetype := "image/png".data, size := 1 } true
    rfl (by decide) (by decide) (by decide) (by decide) (by decide) (by decide)
  exact ⟨h.1, (h.2 (by decide)).1⟩
